import Mathlib

/-!
Shallow embedding of the Steam-Web-Authenticator-Node core
(clock-synchronized code generation, request signing, session lifecycle,
confirmation list/act protocol) together with proofs about the embedded
functions.  Machine integers are modelled as `Nat` with explicit
`% 2^32` where 32-bit overflow matters; fallible code returns
`Option`/`Except`; network responses are passed in explicitly.
-/

set_option maxRecDepth 16384

namespace SteamAuth

/-! ## Byte and 32-bit word helpers -/

/-- The modulus `2^32` for unsigned 32-bit arithmetic. -/
def M32 : Nat := 4294967296

/-- Left-rotate a 32-bit word by `n` bits. -/
def rotl (n x : Nat) : Nat := ((x <<< n) ||| (x >>> (32 - n))) % M32

/-- Big-endian 4-byte encoding of a 32-bit value (`Buffer.writeUInt32BE`). -/
def be32 (x : Nat) : List Nat :=
  [x / 16777216 % 256, x / 65536 % 256, x / 256 % 256, x % 256]

/-- Big-endian 8-byte encoding of a 64-bit value. -/
def be64 (x : Nat) : List Nat := be32 (x / M32) ++ be32 (x % M32)

/-- Indexing into a byte/word list, 0 when out of range (all uses are in range). -/
def nth (l : List Nat) (i : Nat) : Nat := l.getD i 0

/-- Overwrite `bytes` into `buf` starting at position `pos`
(models `Buffer.writeUInt32BE`/`Buffer.copy` on an allocated buffer,
all uses keep `pos + bytes.length ≤ buf.length`). -/
def writeBytes (buf : List Nat) (pos : Nat) (bytes : List Nat) : List Nat :=
  buf.take pos ++ bytes ++ buf.drop (pos + bytes.length)

/-! ## SHA-1 (as used through Node `crypto.createHmac('sha1', ...)`) -/

/-- Group bytes into big-endian 32-bit words. -/
def bytesToWords : List Nat → List Nat
  | a :: b :: c :: d :: rest =>
      (a * 16777216 + b * 65536 + c * 256 + d) :: bytesToWords rest
  | _ => []

/-- Message-schedule extension; `acc` holds the words produced so far in
reverse order (most recent first). -/
def extendWords : Nat → List Nat → List Nat
  | 0, acc => acc
  | n + 1, acc =>
      let w := rotl 1 (nth acc 2 ^^^ nth acc 7 ^^^ nth acc 13 ^^^ nth acc 15)
      extendWords n (w :: acc)

/-- SHA-1 round function. -/
def sha1F (i b c d : Nat) : Nat :=
  if i < 20 then (b &&& c) ||| ((b ^^^ 4294967295) &&& d)
  else if i < 40 then b ^^^ c ^^^ d
  else if i < 60 then (b &&& c) ||| (b &&& d) ||| (c &&& d)
  else b ^^^ c ^^^ d

/-- SHA-1 round constants. -/
def sha1K (i : Nat) : Nat :=
  if i < 20 then 1518500249
  else if i < 40 then 1859775393
  else if i < 60 then 2400959708
  else 3395469782

/-- The 80 compression rounds over the extended message schedule. -/
def sha1Rounds (i : Nat) :
    List Nat → Nat × Nat × Nat × Nat × Nat → Nat × Nat × Nat × Nat × Nat
  | [], st => st
  | w :: ws, (a, b, c, d, e) =>
      let t := (rotl 5 a + sha1F i b c d + e + sha1K i + w) % M32
      sha1Rounds (i + 1) ws (t, a, rotl 30 b, c, d)

/-- Compress one 64-byte chunk into the running hash state. -/
def sha1Compress (st : Nat × Nat × Nat × Nat × Nat) (chunk : List Nat) :
    Nat × Nat × Nat × Nat × Nat :=
  let ws := (extendWords 64 (bytesToWords chunk).reverse).reverse
  let (h0, h1, h2, h3, h4) := st
  let (a, b, c, d, e) := sha1Rounds 0 ws st
  ((h0 + a) % M32, (h1 + b) % M32, (h2 + c) % M32, (h3 + d) % M32, (h4 + e) % M32)

/-- SHA-1 padding: `0x80`, zeros to 56 mod 64, then the bit length as 64-bit BE. -/
def sha1Pad (msg : List Nat) : List Nat :=
  msg ++ [128] ++ List.replicate ((119 - msg.length % 64) % 64) 0 ++
    be64 (8 * msg.length)

/-- Split into 64-byte chunks (fuel-based structural recursion). -/
def chunksAux : Nat → List Nat → List (List Nat)
  | 0, _ => []
  | _, [] => []
  | n + 1, l => l.take 64 :: chunksAux n (l.drop 64)

/-- SHA-1 digest of a byte list: 20 bytes. -/
def sha1 (msg : List Nat) : List Nat :=
  let padded := sha1Pad msg
  let (h0, h1, h2, h3, h4) :=
    (chunksAux padded.length padded).foldl sha1Compress
      (1732584193, 4023233417, 2562383102, 271733878, 3285377520)
  be32 h0 ++ be32 h1 ++ be32 h2 ++ be32 h3 ++ be32 h4

/-- HMAC-SHA1 (`crypto.createHmac('sha1', key).update(msg).digest()`). -/
def hmacSha1 (key msg : List Nat) : List Nat :=
  let k0 := if key.length > 64 then sha1 key else key
  let k := k0 ++ List.replicate (64 - k0.length) 0
  sha1 ((k.map fun b => b ^^^ 92) ++ sha1 ((k.map fun b => b ^^^ 54) ++ msg))

/-! ## Base64, hex and UTF-8 codecs (Node `Buffer` semantics) -/

/-- The base64 alphabet. -/
def b64Chars : List Char :=
  "ABCDEFGHIJKLMNOPQRSTUVWXYZabcdefghijklmnopqrstuvwxyz0123456789+/".data

/-- Character of a 6-bit value. -/
def b64Char (i : Nat) : Char := b64Chars.getD i 'A'

/-- Base64-encode a byte list (`digest('base64')`). -/
def base64EncodeAux : List Nat → List Char
  | [] => []
  | [a] =>
      [b64Char (a >>> 2), b64Char ((a &&& 3) <<< 4), '=', '=']
  | [a, b] =>
      [b64Char (a >>> 2), b64Char (((a &&& 3) <<< 4) ||| (b >>> 4)),
       b64Char ((b &&& 15) <<< 2), '=']
  | a :: b :: c :: rest =>
      b64Char (a >>> 2) :: b64Char (((a &&& 3) <<< 4) ||| (b >>> 4)) ::
      b64Char (((b &&& 15) <<< 2) ||| (c >>> 6)) :: b64Char (c &&& 63) ::
      base64EncodeAux rest

/-- Base64-encode to a string. -/
def base64Encode (bytes : List Nat) : String := String.mk (base64EncodeAux bytes)

/-- Six-bit value of a base64 character, `none` for characters outside the
alphabet (Node's decoder skips those). -/
def b64Val (ch : Char) : Option Nat := b64Chars.findIdx? (· = ch)

/-- The 6-bit values of the valid base64 characters of a string. -/
def b64Vals (s : String) : List Nat := s.data.filterMap b64Val

/-- Reassemble bytes from 6-bit values, Node-style: a dangling group of
2 or 3 values still yields its complete leading bytes, a single dangling
value yields nothing. -/
def base64DecodeVals : List Nat → List Nat
  | a :: b :: c :: d :: rest =>
      ((a <<< 2) ||| (b >>> 4)) :: (((b &&& 15) <<< 4) ||| (c >>> 2)) ::
      (((c &&& 3) <<< 6) ||| d) :: base64DecodeVals rest
  | [a, b] => [(a <<< 2) ||| (b >>> 4)]
  | [a, b, c] => [(a <<< 2) ||| (b >>> 4), ((b &&& 15) <<< 4) ||| (c >>> 2)]
  | _ => []

/-- Node `Buffer.from(s, 'base64')`. -/
def base64Decode (s : String) : List Nat := base64DecodeVals (b64Vals s)

/-- Value of a hexadecimal digit, case-insensitive. -/
def hexVal (ch : Char) : Option Nat :=
  if '0' ≤ ch ∧ ch ≤ '9' then some (ch.toNat - 48)
  else if 'a' ≤ ch ∧ ch ≤ 'f' then some (ch.toNat - 87)
  else if 'A' ≤ ch ∧ ch ≤ 'F' then some (ch.toNat - 55)
  else none

/-- The regex `/^[0-9a-f]{40}$/i`: exactly 40 hex characters. -/
def isHex40 (s : String) : Bool :=
  s.data.length == 40 && s.data.all fun ch => (hexVal ch).isSome

/-- Node `Buffer.from(s, 'hex')` on an all-hex string. -/
def hexDecodeAux : List Char → List Nat
  | a :: b :: rest => ((hexVal a).getD 0 * 16 + (hexVal b).getD 0) :: hexDecodeAux rest
  | _ => []

/-- UTF-8 encoding of one character. -/
def utf8Char (ch : Char) : List Nat :=
  let n := ch.toNat
  if n < 128 then [n]
  else if n < 2048 then [192 ||| (n >>> 6), 128 ||| (n &&& 63)]
  else if n < 65536 then
    [224 ||| (n >>> 12), 128 ||| ((n >>> 6) &&& 63), 128 ||| (n &&& 63)]
  else
    [240 ||| (n >>> 18), 128 ||| ((n >>> 12) &&& 63),
     128 ||| ((n >>> 6) &&& 63), 128 ||| (n &&& 63)]

/-- Node `Buffer.from(s, 'utf8')`. -/
def utf8Encode (s : String) : List Nat := (s.data.map utf8Char).flatten

/-! ## JavaScript truthiness helpers

Optional string fields are modelled as `Option String`; `none` is
`undefined`/`null` and the empty string is the only other falsy value
that arises. -/

/-- JS truthiness of an optional string value. -/
def jsTruthy : Option String → Bool
  | none => false
  | some s => s ≠ ""

/-- JS `a || b` on optional string values. -/
def jsOr (a b : Option String) : Option String := if jsTruthy a then a else b

/-! ## SecretCodec — `bufferizeSecret` (src/server/deviceID.js, steamCrypto) -/

/-- Translation of `bufferizeSecret(secret)`: `null` for falsy input, hex decode for a
40-hex-character string, base64 decode otherwise. -/
def bufferizeSecret : Option String → Option (List Nat)
  | none => none
  | some s =>
      if s = "" then none
      else if isHex40 s then some (hexDecodeAux s.data)
      else some (base64Decode s)

/-! ## CodeGenerator — `generateSteamGuardCode` (src/server/steamGuard.js) -/

/-- The 26-character code alphabet `STEAM_CHARS`. -/
def steamChars : List Char := "23456789BCDFGHJKMNPQRTVWXY".data

/-- The 5-iteration `code += STEAM_CHARS.charAt(fullCode % 26); fullCode = ⌊fullCode / 26⌋`
loop, characters in extraction order. -/
def codeLoop : Nat → Nat → List Char
  | 0, _ => []
  | n + 1, v => steamChars.getD (v % 26) '2' :: codeLoop n (v / 26)

/-- Computation of `offset = hmac[19] & 0x0F` and the 31-bit big-endian extraction
`((hmac[offset] & 0x7f) << 24) | (hmac[offset+1] << 16) | (hmac[offset+2] << 8) | hmac[offset+3]`. -/
def extract31 (digest : List Nat) : Nat :=
  let offset := nth digest 19 &&& 15
  ((nth digest offset &&& 127) <<< 24) ||| ((nth digest (offset + 1) &&& 255) <<< 16) |||
    ((nth digest (offset + 2) &&& 255) <<< 8) ||| (nth digest (offset + 3) &&& 255)

/-- Errors thrown by the code generator and the request signer.
`rangeError` models the `RangeError` Node throws from `writeUInt32BE`
on an out-of-range value. -/
inductive GuardError where
  | missingSecret
  | rangeError
deriving DecidableEq, Repr

/-- The code for one 30-second time step: HMAC-SHA1 over the 8-byte
buffer built by `writeUInt32BE(0, 0); writeUInt32BE(timeStep, 4)`. -/
def codeForTimeStep (key : List Nat) (timeStep : Nat) : String :=
  let timeBuffer := writeBytes (writeBytes (List.replicate 8 0) 0 (be32 0)) 4 (be32 timeStep)
  String.mk (codeLoop 5 (extract31 (hmacSha1 key timeBuffer)))

/-- Translation of `generateSteamGuardCode(sharedSecretInput, timestampMs)`. -/
def generateSteamGuardCode (secret : Option String) (timestampMs : Nat) :
    Except GuardError String :=
  match bufferizeSecret secret with
  | none => .error .missingSecret
  | some key =>
      let timeStep := timestampMs / 1000 / 30
      if timeStep < M32 then .ok (codeForTimeStep key timeStep)
      else .error .rangeError

/-! ## RequestSigner — steamCrypto (src/server/deviceID.js, second half) -/

/-- An account record as assembled by `loadAccounts` (src/unnamed/part_002):
identifiers plus the optional secrets and the optional `raw_mafile.Session`
fallback fields used by `getSessionCookieHeader`. -/
structure MaSession where
  SessionID : Option String
  SteamLoginSecure : Option String
  AccessToken : Option String
deriving DecidableEq, Repr

structure Account where
  id : String
  steamid : String
  device_id : String
  shared_secret : Option String
  identity_secret : Option String
  rawSession : Option MaSession
deriving DecidableEq, Repr

/-- Translation of `generateConfirmationKey(identitySecret, time, tag)`: HMAC-SHA1 over
the 8-byte `[uint32BE 0, uint32BE time]` buffer with the UTF-8 tag bytes
copied in at offset 8 when the tag is non-empty, base64-encoded. -/
def generateConfirmationKey (identitySecret : Option String) (time : Nat) (tag : String) :
    Except GuardError String :=
  match bufferizeSecret identitySecret with
  | none => .error .missingSecret
  | some secretBuf =>
      if time < M32 then
        let tagBuf := utf8Encode tag
        let buf1 := writeBytes (writeBytes (List.replicate (8 + tagBuf.length) 0) 0 (be32 0))
          4 (be32 time)
        let buf := if tagBuf.length > 0 then writeBytes buf1 8 tagBuf else buf1
        .ok (base64Encode (hmacSha1 secretBuf buf))
      else .error .rangeError

/-- Translation of `generateConfirmationQueryParams(account, tag)`; the current
synchronized time `getSteamTime()` is passed explicitly. -/
def generateConfirmationQueryParams (account : Account) (steamTime : Nat) (tag : String) :
    Except GuardError (List (String × String)) :=
  match generateConfirmationKey account.identity_secret steamTime tag with
  | .error e => .error e
  | .ok key =>
      .ok [("p", account.device_id), ("a", account.steamid), ("k", key),
           ("t", toString steamTime), ("m", "android"), ("tag", tag)]

/-! ## SessionLifecycle (src/unnamed/part_002, the storage module)

Timestamps are stored as ISO strings and compared through
`new Date(x).getTime()`; they are modelled directly as epoch
milliseconds (`Int`).  A missing field is `none`. -/

/-- A stored session record as written by `setSessionCookiesForAccount`. -/
structure StoredSession where
  sessionid : Option String
  steamLoginSecure : Option String
  oAuthToken : Option String
  createdAt : Option Int
  lastUsed : Option Int
deriving DecidableEq, Repr

/-- The constant `SESSION_EXPIRY_MS = 30 * 24 * 60 * 60 * 1000`. -/
def SESSION_EXPIRY_MS : Int := 2592000000

/-- The constant `SESSION_IDLE_TIMEOUT_MS = 7 * 24 * 60 * 60 * 1000`. -/
def SESSION_IDLE_TIMEOUT_MS : Int := 604800000

/-- Translation of `isSessionExpired(session)` with the current time `Date.now()`
passed explicitly: missing record or missing `createdAt` is expired;
then age expiry, then idle expiry (only when `lastUsed` is present). -/
def isSessionExpired (session : Option StoredSession) (now : Int) : Bool :=
  match session with
  | none => true
  | some s =>
      match s.createdAt with
      | none => true
      | some createdAt =>
          if now - createdAt > SESSION_EXPIRY_MS then true
          else
            match s.lastUsed with
            | none => false
            | some lastUsed => decide (now - lastUsed > SESSION_IDLE_TIMEOUT_MS)

/-- The `reason` field of `isSessionValid`. -/
inductive ValidationReason where
  | NO_SESSION
  | INCOMPLETE_SESSION
  | SESSION_EXPIRED
deriving DecidableEq, Repr

/-- The result of `isSessionValid`. -/
structure ValidationResult where
  valid : Bool
  reason : Option ValidationReason
deriving DecidableEq, Repr

/-- Translation of `isSessionValid(accountId)`, with the looked-up record and `Date.now()`
passed explicitly. -/
def isSessionValid (session : Option StoredSession) (now : Int) : ValidationResult :=
  match session with
  | none => ⟨false, some .NO_SESSION⟩
  | some s =>
      if !jsTruthy s.sessionid || !jsTruthy s.steamLoginSecure then
        ⟨false, some .INCOMPLETE_SESSION⟩
      else if isSessionExpired (some s) now then ⟨false, some .SESSION_EXPIRED⟩
      else ⟨true, none⟩

/-! ## Session cookie resolution (src/server/steamSession.js)

`getSessionCookieHeader(account)` resolves the cookie pair from the
stored session with `raw_mafile.Session` fallbacks and throws
`LOGIN_REQUIRED` when either half is falsy; `none` models the throw. -/

def getSessionCookieHeader (saved : Option StoredSession) (account : Account) :
    Option String :=
  let sessionid :=
    jsOr (saved.bind (·.sessionid))
      (jsOr (account.rawSession.bind (·.SessionID)) (some ""))
  let token :=
    jsOr (saved.bind (·.steamLoginSecure))
      (jsOr (account.rawSession.bind (·.SteamLoginSecure))
        (account.rawSession.bind (·.AccessToken)))
  if !jsTruthy sessionid || !jsTruthy token then none
  else some ("sessionid=" ++ sessionid.getD "" ++ "; steamLoginSecure=" ++ token.getD "")

/-! ## ConfirmationOrchestrator (src/server/confirmations.js)

Remote calls are modelled by passing the responses in: `resp i` is the
response to the `i`-th `axios` call of the batch. Each embedded entry
point also returns the number of remote calls it issued. -/

/-- One confirmation item as submitted to `actOnConfirmations`. -/
structure ConfItem where
  id : Option String
  confirmationId : Option String
  key : Option String
  nonce : Option String
deriving DecidableEq, Repr

/-- The resolved id `conf.id || conf.confirmationId`. -/
def confIdOf (c : ConfItem) : Option String := jsOr c.id c.confirmationId

/-- The resolved key `conf.key || conf.nonce`. -/
def confKeyOf (c : ConfItem) : Option String := jsOr c.key c.nonce

/-- The `if (!confId || !confKey) throw` guard, as a predicate. -/
def wellFormed (c : ConfItem) : Bool := jsTruthy (confIdOf c) && jsTruthy (confKeyOf c)

/-- The body of one act response after the
`typeof res.data === 'string' → JSON.parse` step:
`rawUnparsable` is a string body that fails to parse, `nullish` a parsed
falsy value, `obj` a parsed object with its `success`/`error`/`message`
fields. -/
inductive RespBody where
  | rawUnparsable
  | nullish
  | obj (success : Option Bool) (error : Option String) (message : Option String)
deriving DecidableEq, Repr

/-- One remote response. -/
structure HttpResp where
  status : Nat
  body : RespBody
deriving DecidableEq, Repr

/-- One per-item entry pushed onto `results`. -/
structure ItemResult where
  confId : String
  success : Bool
  error : Option String
  message : Option String
deriving DecidableEq, Repr

/-- The per-item outcome classification for an HTTP 200 response body
(lines 113-137 of the act loop). -/
def classifyBody (confId : String) (status : Nat) (body : RespBody) : ItemResult :=
  match body with
  | .rawUnparsable => ⟨confId, true, none, some "Processed"⟩
  | .nullish =>
      if status == 200 then ⟨confId, true, none, none⟩
      else ⟨confId, false, some "Unclear response", none⟩
  | .obj success error message =>
      if success = some true then ⟨confId, true, none, none⟩
      else if success = some false ∨ jsTruthy error then
        ⟨confId, false, some ((jsOr message (jsOr error (some "Unknown error"))).getD ""), none⟩
      else if status == 200 then ⟨confId, true, none, none⟩
      else ⟨confId, false, some "Unclear response", none⟩

/-- Errors thrown by `actOnConfirmations`. -/
inductive ActError where
  | identityMissing
  | invalidOperation
  | emptyBatch
  | loginRequired
  | malformedConfirmation (index : Nat)
  | httpError (status : Nat) (confId : String)
  | batchFailed (failedIds : List String)
  | signError (e : GuardError)
deriving DecidableEq, Repr

/-- The sequential per-item loop of `actOnConfirmations`: for each item,
check `id`/`key`, build the signed body, issue one remote call, then
classify 401/403 (abort `LOGIN_REQUIRED`), other non-200 (abort with the
HTTP error naming this confirmation), or a 200 body (push one entry and
continue).  Also counts the remote calls issued. -/
def actLoop (account : Account) (steamTime : Nat) (op : String) (resp : Nat → HttpResp) :
    List ConfItem → Nat → List ItemResult → Except ActError (List ItemResult) × Nat
  | [], _, acc => (.ok acc, 0)
  | conf :: rest, i, acc =>
      if !wellFormed conf then (.error (.malformedConfirmation i), 0)
      else
        match generateConfirmationQueryParams account steamTime op with
        | .error e => (.error (.signError e), 0)
        | .ok _params =>
            let r := resp i
            if r.status == 401 || r.status == 403 then (.error .loginRequired, 1)
            else if r.status != 200 then
              (.error (.httpError r.status ((confIdOf conf).getD "")), 1)
            else
              let item := classifyBody ((confIdOf conf).getD "") r.status r.body
              let (out, n) := actLoop account steamTime op resp rest (i + 1) (acc ++ [item])
              (out, n + 1)

/-- The value returned by a fully successful `actOnConfirmations`. -/
structure ActResult where
  success : Bool
  results : List ItemResult
deriving DecidableEq, Repr

/-- Translation of `actOnConfirmations(account, op, confirmations)`: identity-secret,
operation and non-empty-array guards, cookie resolution, the per-item
loop, then the summary that throws an aggregate error naming the failed
confirmation ids when any item failed.  Returns the outcome and the
number of remote act calls issued. -/
def actOnConfirmations (saved : Option StoredSession) (account : Account) (steamTime : Nat)
    (op : String) (confirmations : Option (List ConfItem)) (resp : Nat → HttpResp) :
    Except ActError ActResult × Nat :=
  if !jsTruthy account.identity_secret then (.error .identityMissing, 0)
  else if !(op == "allow" || op == "cancel") then (.error .invalidOperation, 0)
  else
    match confirmations with
    | none => (.error .emptyBatch, 0)
    | some confs =>
        if confs.length == 0 then (.error .emptyBatch, 0)
        else
          match getSessionCookieHeader saved account with
          | none => (.error .loginRequired, 0)
          | some _cookie =>
              match actLoop account steamTime op resp confs 0 [] with
              | (.error e, n) => (.error e, n)
              | (.ok results, n) =>
                  let failedIds := (results.filter fun r => !r.success).map (·.confId)
                  if failedIds.length > 0 then (.error (.batchFailed failedIds), n)
                  else (.ok ⟨true, results⟩, n)

/-- Errors thrown by `fetchConfirmations`. -/
inductive FetchError where
  | identityMissing
  | loginRequired
  | httpError (status : Nat)
  | signError (e : GuardError)
deriving DecidableEq, Repr

/-- The body of the getlist response: an unparsable string body, or a
parsed object with an optional `conf` array. -/
inductive FetchBody where
  | rawUnparsable
  | obj (conf : Option (List ConfItem))
deriving DecidableEq, Repr

structure FetchResp where
  status : Nat
  body : FetchBody
deriving DecidableEq, Repr

/-- Translation of `fetchConfirmations(account)`: identity-secret guard, cookie
resolution, signed params with tag `"conf"`, one remote call; 401/403
throws `LOGIN_REQUIRED`, other non-200 throws the HTTP error, an
unparsable 200 body yields the empty list, otherwise `data.conf || []`.
Returns the outcome and the number of remote calls issued. -/
def fetchConfirmations (saved : Option StoredSession) (account : Account) (steamTime : Nat)
    (resp : FetchResp) : Except FetchError (List ConfItem) × Nat :=
  if !jsTruthy account.identity_secret then (.error .identityMissing, 0)
  else
    match getSessionCookieHeader saved account with
    | none => (.error .loginRequired, 0)
    | some _cookie =>
        match generateConfirmationQueryParams account steamTime "conf" with
        | .error e => (.error (.signError e), 0)
        | .ok _params =>
            if resp.status == 401 || resp.status == 403 then (.error .loginRequired, 1)
            else if resp.status != 200 then (.error (.httpError resp.status), 1)
            else
              match resp.body with
              | .rawUnparsable => (.ok [], 1)
              | .obj conf => (.ok (conf.getD []), 1)

/-! ## Spec-side definitions used to state the claims -/

/-- The expiry policy exactly as the specification words it (§4.5):
age expiry when `now - createdAt > 30 days`, else idle expiry when
`lastUsedAt` is present and `now - lastUsedAt > 7 days`; a session with
no `lastUsedAt` is never idle-expired.  Stated for comparison with the
source's `isSessionExpired`. -/
def specExpiryPolicy (createdAt : Int) (lastUsed : Option Int) (now : Int) : Bool :=
  if now - createdAt > 30 * 86400000 then true
  else
    match lastUsed with
    | some lu => decide (now - lu > 7 * 86400000)
    | none => false

/-- The per-item entries the act loop pushes for a run of items whose
responses all carry HTTP 200, starting at call index `i`. -/
def outcomesFrom (resp : Nat → HttpResp) : Nat → List ConfItem → List ItemResult
  | _, [] => []
  | i, c :: cs =>
      classifyBody ((confIdOf c).getD "") (resp i).status (resp i).body ::
        outcomesFrom resp (i + 1) cs

/-! ## Helper lemmas -/

lemma bufferizeSecret_isSome_of_truthy (o : Option String) (h : jsTruthy o = true) :
    ∃ b, bufferizeSecret o = some b := by
  match o with
  | none => simp [jsTruthy] at h
  | some s =>
      simp only [jsTruthy, decide_eq_true_eq] at h
      simp only [bufferizeSecret, if_neg h]
      split
      · exact ⟨_, rfl⟩
      · exact ⟨_, rfl⟩

lemma generateConfirmationKey_ok (secret : Option String) (key : List Nat) (t : Nat)
    (tag : String) (hsec : bufferizeSecret secret = some key) (ht : t < M32) :
    generateConfirmationKey secret t tag = .ok (base64Encode (hmacSha1 key
      (let tagBuf := utf8Encode tag
       let buf1 := writeBytes (writeBytes (List.replicate (8 + tagBuf.length) 0) 0 (be32 0))
         4 (be32 t)
       if tagBuf.length > 0 then writeBytes buf1 8 tagBuf else buf1))) := by
  simp only [generateConfirmationKey, hsec, if_pos ht]

lemma gcqp_ok (account : Account) (t : Nat) (tag : String)
    (hid : jsTruthy account.identity_secret = true) (ht : t < M32) :
    ∃ ps, generateConfirmationQueryParams account t tag = .ok ps := by
  obtain ⟨b, hb⟩ := bufferizeSecret_isSome_of_truthy _ hid
  rw [generateConfirmationQueryParams, generateConfirmationKey_ok _ b t tag hb ht]
  exact ⟨_, rfl⟩

lemma codeLoop_length (n v : Nat) : (codeLoop n v).length = n := by
  induction n generalizing v with
  | zero => rfl
  | succ k ih => simp [codeLoop, ih]

lemma getD_mem {α : Type} (l : List α) (i : Nat) (d : α) (h : i < l.length) :
    l.getD i d ∈ l := by
  induction l generalizing i with
  | nil => simp at h
  | cons a t ih =>
      cases i with
      | zero => simp [List.getD]
      | succ j =>
          simp only [List.getD_cons_succ]
          exact List.mem_cons_of_mem a (ih j (by simpa using h))

lemma codeLoop_mem (n v : Nat) : ∀ ch ∈ codeLoop n v, ch ∈ steamChars := by
  induction n generalizing v with
  | zero => intro ch h; simp [codeLoop] at h
  | succ k ih =>
      intro ch h
      simp only [codeLoop, List.mem_cons] at h
      rcases h with h | h
      · subst h
        exact getD_mem steamChars (v % 26) '2' (by
          have : v % 26 < 26 := Nat.mod_lt v (by norm_num)
          simpa [steamChars] using this)
      · exact ih (v / 26) ch h

lemma be32_length (x : Nat) : (be32 x).length = 4 := rfl

lemma writeBytes_at (pre mid post bytes : List Nat) (pos : Nat) (hpos : pre.length = pos)
    (hmid : mid.length = bytes.length) :
    writeBytes (pre ++ mid ++ post) pos bytes = pre ++ bytes ++ post := by
  subst hpos
  have h1 : (pre ++ mid ++ post).take pre.length = pre := by
    rw [List.append_assoc]; exact List.take_left pre (mid ++ post)
  have h2 : (pre ++ mid ++ post).drop (pre.length + bytes.length) = post := by
    rw [← hmid, ← List.length_append]
    exact List.drop_left (pre ++ mid) post
  rw [writeBytes, h1, h2]

/-- The signing buffer built by `Buffer.alloc(8 + tagLen)`,
`writeUInt32BE(0, 0)`, `writeUInt32BE(time, 4)` and the conditional
`tagBuf.copy(buf, 8)` is the concatenation
`uint32BE 0 ++ uint32BE time ++ tagBytes`. -/
lemma confirmationBuffer_eq (t : Nat) (tagBuf : List Nat) :
    (if tagBuf.length > 0 then
      writeBytes (writeBytes (writeBytes (List.replicate (8 + tagBuf.length) 0) 0 (be32 0))
        4 (be32 t)) 8 tagBuf
     else
      writeBytes (writeBytes (List.replicate (8 + tagBuf.length) 0) 0 (be32 0))
        4 (be32 t)) =
      be32 0 ++ be32 t ++ tagBuf := by
  have hsplit : List.replicate (8 + tagBuf.length) 0 =
      ([] : List Nat) ++ List.replicate 4 0 ++ List.replicate (4 + tagBuf.length) 0 := by
    rw [List.nil_append, ← List.replicate_add]
    congr 1
    omega
  have hw1 : writeBytes (List.replicate (8 + tagBuf.length) 0) 0 (be32 0) =
      be32 0 ++ List.replicate (4 + tagBuf.length) 0 := by
    rw [hsplit,
      writeBytes_at [] (List.replicate 4 0) (List.replicate (4 + tagBuf.length) 0)
        (be32 0) 0 rfl rfl,
      List.nil_append]
  have hw2 : writeBytes (be32 0 ++ List.replicate (4 + tagBuf.length) 0) 4 (be32 t) =
      be32 0 ++ be32 t ++ List.replicate tagBuf.length 0 := by
    rw [show List.replicate (4 + tagBuf.length) (0 : Nat) =
        List.replicate 4 0 ++ List.replicate tagBuf.length 0 from (List.replicate_add ..),
      ← List.append_assoc]
    exact writeBytes_at (be32 0) (List.replicate 4 0) (List.replicate tagBuf.length 0)
      (be32 t) 4 rfl rfl
  simp only [hw1, hw2]
  rcases Nat.eq_zero_or_pos tagBuf.length with hL | hL
  · rw [if_neg (by omega)]
    rw [List.length_eq_zero] at hL
    simp [hL]
  · rw [if_pos hL]
    have h8 : be32 0 ++ be32 t ++ List.replicate tagBuf.length 0 =
        (be32 0 ++ be32 t) ++ List.replicate tagBuf.length 0 ++ [] := by simp
    rw [h8,
      writeBytes_at (be32 0 ++ be32 t) (List.replicate tagBuf.length 0) [] tagBuf 8
        rfl (by simp), List.append_nil, List.append_assoc]

/-- Composition of the act loop: a prefix of well-formed items whose
responses all carry HTTP 200 contributes one remote call and one
outcome entry per item, then the loop continues on the remainder. -/
lemma actLoop_append (account : Account) (t : Nat) (op : String) (resp : Nat → HttpResp)
    (hid : jsTruthy account.identity_secret = true) (ht : t < M32) :
    ∀ (pre l : List ConfItem) (i : Nat) (acc : List ItemResult),
      (∀ c ∈ pre, wellFormed c = true) →
      (∀ j, j < pre.length → (resp (i + j)).status = 200) →
      actLoop account t op resp (pre ++ l) i acc =
        ((actLoop account t op resp l (i + pre.length) (acc ++ outcomesFrom resp i pre)).1,
         (actLoop account t op resp l (i + pre.length) (acc ++ outcomesFrom resp i pre)).2
           + pre.length) := by
  intro pre
  induction pre with
  | nil => intro l i acc _ _; simp [outcomesFrom]
  | cons c cs ih =>
      intro l i acc hwf hst
      have hc : wellFormed c = true := hwf c (List.mem_cons_self c cs)
      obtain ⟨ps, hps⟩ := gcqp_ok account t op hid ht
      have h0 : (resp i).status = 200 := by simpa using hst 0 (Nat.succ_pos _)
      rw [List.cons_append]
      simp only [actLoop, hc, Bool.not_true, Bool.false_eq_true, if_false, hps, h0]
      norm_num
      rw [ih l (i + 1) (acc ++ [classifyBody ((confIdOf c).getD "") 200 (resp i).body])
        (fun c' hc' => hwf c' (List.mem_cons_of_mem c hc'))
        (fun j hj => by
          have := hst (j + 1) (by simpa using Nat.succ_lt_succ hj)
          simpa [Nat.add_assoc, Nat.add_comm 1 j] using this)]
      simp only [outcomesFrom, h0, List.append_assoc, List.singleton_append,
        List.length_cons]
      rw [Nat.add_assoc, Nat.add_comm 1 cs.length]
      exact ⟨rfl, by omega⟩

lemma outcomesFrom_length (resp : Nat → HttpResp) (i : Nat) (confs : List ConfItem) :
    (outcomesFrom resp i confs).length = confs.length := by
  induction confs generalizing i with
  | nil => rfl
  | cons c cs ih => simp [outcomesFrom, ih]

/-- A well-formed item whose response status is neither 200 nor 401/403
aborts the loop with the HTTP error naming this confirmation, after its
single remote call. -/
lemma actLoop_http_abort (account : Account) (t : Nat) (op : String) (resp : Nat → HttpResp)
    (bad : ConfItem) (rest : List ConfItem) (i : Nat) (acc : List ItemResult) (s : Nat)
    (hid : jsTruthy account.identity_secret = true) (ht : t < M32)
    (hbad : wellFormed bad = true) (hs : (resp i).status = s)
    (h401 : s ≠ 401) (h403 : s ≠ 403) (h200 : s ≠ 200) :
    actLoop account t op resp (bad :: rest) i acc =
      (.error (.httpError s ((confIdOf bad).getD "")), 1) := by
  obtain ⟨ps, hps⟩ := gcqp_ok account t op hid ht
  simp [actLoop, hbad, hps, hs, h401, h403, h200]

/-- An item with a missing id or key aborts the loop before its remote call. -/
lemma actLoop_malformed (account : Account) (t : Nat) (op : String) (resp : Nat → HttpResp)
    (bad : ConfItem) (rest : List ConfItem) (i : Nat) (acc : List ItemResult)
    (hbad : wellFormed bad = false) :
    actLoop account t op resp (bad :: rest) i acc =
      (.error (.malformedConfirmation i), 0) := by
  simp [actLoop, hbad]

/-- When every item is well-formed and every response carries HTTP 200,
the loop completes with exactly one outcome entry per item and one
remote call per item. -/
lemma actLoop_all200 (account : Account) (t : Nat) (op : String) (resp : Nat → HttpResp)
    (confs : List ConfItem)
    (hid : jsTruthy account.identity_secret = true) (ht : t < M32)
    (hwf : ∀ c ∈ confs, wellFormed c = true)
    (hst : ∀ j, j < confs.length → (resp j).status = 200) :
    actLoop account t op resp confs 0 [] =
      (.ok (outcomesFrom resp 0 confs), confs.length) := by
  have h := actLoop_append account t op resp hid ht confs [] 0 [] hwf (by simpa using hst)
  rw [List.append_nil] at h
  simpa [actLoop] using h

/-- The top-level structure of `actOnConfirmations` once the input guards
and the cookie resolution pass. -/
lemma act_unfold (saved : Option StoredSession) (account : Account) (t : Nat) (op : String)
    (resp : Nat → HttpResp) (confs : List ConfItem)
    (hid : jsTruthy account.identity_secret = true)
    (hop : op = "allow" ∨ op = "cancel") (hne : confs ≠ [])
    (hck : (getSessionCookieHeader saved account).isSome = true) :
    actOnConfirmations saved account t op (some confs) resp =
      (match actLoop account t op resp confs 0 [] with
       | (.error e, n) => (.error e, n)
       | (.ok results, n) =>
           let failedIds := (results.filter fun r => !r.success).map (·.confId)
           if failedIds.length > 0 then (.error (.batchFailed failedIds), n)
           else (.ok ⟨true, results⟩, n)) := by
  obtain ⟨ck, hckk⟩ := Option.isSome_iff_exists.mp hck
  have hlen : (confs.length == 0) = false := by
    simp [hne]
  have hopb : (op == "allow" || op == "cancel") = true := by
    rcases hop with h | h <;> simp [h]
  simp only [actOnConfirmations, hid, hopb, Bool.not_true, Bool.false_eq_true, if_false,
    hlen, hckk]

/-! ## Concrete fixtures shared by witnesses and counterexamples -/

/-- A concrete account whose identity secret decodes to the single byte 0. -/
def acct0 : Account := ⟨"acc1", "76561198000000000", "android:dev", none, some "AA==", none⟩

/-- A concrete stored session (created and last used at epoch 0). -/
def sess0 : StoredSession := ⟨some "sid", some "tok", none, some 0, some 0⟩

/-- A confirmation item with the given id and key. -/
def mkItem (id k : String) : ConfItem := ⟨some id, none, some k, none⟩

/-- A 200 response whose parsed body reports `success: true`. -/
def okResp : HttpResp := ⟨200, .obj (some true) none none⟩

/-! ## Claim theorems -/

/-- C1, counterexample: in `actOnConfirmations`, a 3-item batch whose
second remote call returns HTTP 500 (first call succeeding) aborts the
whole batch with the HTTP error for item "2" after only 2 remote calls —
the item is not recorded as failed in per-item results and processing
does not continue with item "3". -/
theorem c1_counterexample :
    actOnConfirmations (some sess0) acct0 1 "allow"
        (some [mkItem "1" "k1", mkItem "2" "k2", mkItem "3" "k3"])
        (fun i => if i == 1 then ⟨500, .obj none none none⟩ else okResp) =
      (.error (.httpError 500 "2"), 2) := by
  rfl

/-- C1 (amended): in `actOnConfirmations`, for every confirmation item
whose remote call returns an HTTP status other than 200, 401 and 403,
the whole batch is aborted with an HTTP error carrying that status and
the item's id: no per-item failure entry is recorded for it, and no
remote call is issued for any later item (exactly one call per preceding
item plus one for the aborting item). HTTP 401/403 aborts with
`LoginRequired` instead. -/
theorem c1_act_non200_aborts_batch
    (saved : Option StoredSession) (account : Account) (t : Nat) (op : String)
    (resp : Nat → HttpResp) (pre rest : List ConfItem) (bad : ConfItem) (s : Nat)
    (hid : jsTruthy account.identity_secret = true) (ht : t < M32)
    (hop : op = "allow" ∨ op = "cancel")
    (hck : (getSessionCookieHeader saved account).isSome = true)
    (hpre : ∀ c ∈ pre, wellFormed c = true)
    (hpreS : ∀ j, j < pre.length → (resp j).status = 200)
    (hbad : wellFormed bad = true)
    (hs : (resp pre.length).status = s)
    (h200 : s ≠ 200) (h401 : s ≠ 401) (h403 : s ≠ 403) :
    actOnConfirmations saved account t op (some (pre ++ bad :: rest)) resp =
      (.error (.httpError s ((confIdOf bad).getD "")), pre.length + 1) := by
  rw [act_unfold saved account t op resp _ hid hop (by simp) hck]
  rw [actLoop_append account t op resp hid ht pre (bad :: rest) 0 []
    hpre (by simpa using hpreS)]
  rw [actLoop_http_abort account t op resp bad rest (0 + pre.length) _ s hid ht hbad
    (by simpa using hs) h401 h403 h200]
  simp [Nat.add_comm]

/-- C1 witness: a concrete instance of the amended statement — a 2-item
prefix-free batch where the second item's call returns HTTP 502. -/
theorem c1_act_non200_aborts_batch_witness :
    actOnConfirmations (some sess0) acct0 1 "cancel"
        (some [mkItem "1" "k1", mkItem "2" "k2", mkItem "3" "k3"])
        (fun i => if i == 0 then okResp else ⟨502, .nullish⟩) =
      (.error (.httpError 502 "2"), 2) :=
  c1_act_non200_aborts_batch (some sess0) acct0 1 "cancel"
    (fun i => if i == 0 then okResp else ⟨502, .nullish⟩)
    [mkItem "1" "k1"] [mkItem "3" "k3"] (mkItem "2" "k2") 502
    (by decide) (by decide) (Or.inr rfl) (by decide)
    (by decide) (by decide) (by decide) (by decide)
    (by decide) (by decide) (by decide)

/-- C2, counterexample: `actOnConfirmations` on a 2-item batch whose
second item lacks a key issues one remote call (for the first,
well-formed item) before failing with the malformed-confirmation error —
not zero remote calls as the claim states. -/
theorem c2_counterexample :
    actOnConfirmations (some sess0) acct0 1 "allow"
        (some [mkItem "1" "k1", ⟨some "2", none, none, none⟩])
        (fun _ => okResp) =
      (.error (.malformedConfirmation 1), 1) := by
  rfl

/-- C2 (amended): `actOnConfirmations` fails with the
malformed-confirmation error when the sequential loop reaches the first
item lacking an id or a key; no remote call is issued for that item or
any later item, but one remote call has already been issued for each
preceding (well-formed, HTTP-200-answered) item — zero remote calls
happen only when the malformed item is first. -/
theorem c2_act_malformed_fails_at_item
    (saved : Option StoredSession) (account : Account) (t : Nat) (op : String)
    (resp : Nat → HttpResp) (pre rest : List ConfItem) (bad : ConfItem)
    (hid : jsTruthy account.identity_secret = true) (ht : t < M32)
    (hop : op = "allow" ∨ op = "cancel")
    (hck : (getSessionCookieHeader saved account).isSome = true)
    (hpre : ∀ c ∈ pre, wellFormed c = true)
    (hpreS : ∀ j, j < pre.length → (resp j).status = 200)
    (hbad : wellFormed bad = false) :
    actOnConfirmations saved account t op (some (pre ++ bad :: rest)) resp =
      (.error (.malformedConfirmation pre.length), pre.length) := by
  rw [act_unfold saved account t op resp _ hid hop (by simp) hck]
  rw [actLoop_append account t op resp hid ht pre (bad :: rest) 0 []
    hpre (by simpa using hpreS)]
  rw [actLoop_malformed account t op resp bad rest (0 + pre.length) _ hbad]
  simp

/-- C2 witness: a concrete instance of the amended statement — the
malformed item sits at index 1, after one well-formed item. -/
theorem c2_act_malformed_fails_at_item_witness :
    actOnConfirmations (some sess0) acct0 1 "allow"
        (some [mkItem "1" "k1", ⟨none, none, some "k2", some "n2"⟩])
        (fun _ => okResp) =
      (.error (.malformedConfirmation 1), 1) :=
  c2_act_malformed_fails_at_item (some sess0) acct0 1 "allow" (fun _ => okResp)
    [mkItem "1" "k1"] [] ⟨none, none, some "k2", some "n2"⟩
    (by decide) (by decide) (Or.inl rfl) (by decide)
    (by decide) (by decide) (by decide)

/-- C3, counterexample: when one item of a fully-attempted 3-item batch
fails via its parsed body, `actOnConfirmations` throws the aggregate
error carrying only the failed item ids — the per-item results
(successCount 2, failureCount 1, three entries) are discarded, not
exposed to the caller alongside the failure. -/
theorem c3_counterexample :
    actOnConfirmations (some sess0) acct0 1 "allow"
        (some [mkItem "1" "k1", mkItem "2" "k2", mkItem "3" "k3"])
        (fun i => if i == 1 then ⟨200, .obj (some false) none (some "boom")⟩ else okResp) =
      (.error (.batchFailed ["2"]), 3) := by
  rfl

/-- C3 (amended): when every item is well-formed and every remote call
returns HTTP 200, every submitted item yields exactly one per-item
outcome entry; after all items are attempted, the call returns the full
`{success, results}` value when no entry failed, and otherwise throws an
aggregate error listing exactly the failed item ids — the per-item
entries themselves are not part of the thrown value. -/
theorem c3_act_aggregate_error
    (saved : Option StoredSession) (account : Account) (t : Nat) (op : String)
    (resp : Nat → HttpResp) (confs : List ConfItem)
    (hid : jsTruthy account.identity_secret = true) (ht : t < M32)
    (hop : op = "allow" ∨ op = "cancel") (hne : confs ≠ [])
    (hck : (getSessionCookieHeader saved account).isSome = true)
    (hwf : ∀ c ∈ confs, wellFormed c = true)
    (hst : ∀ j, j < confs.length → (resp j).status = 200) :
    (outcomesFrom resp 0 confs).length = confs.length ∧
    actOnConfirmations saved account t op (some confs) resp =
      (if ((outcomesFrom resp 0 confs).filter fun r => !r.success).map (·.confId) = []
       then (.ok ⟨true, outcomesFrom resp 0 confs⟩, confs.length)
       else (.error (.batchFailed
          (((outcomesFrom resp 0 confs).filter fun r => !r.success).map (·.confId))),
         confs.length)) := by
  refine ⟨outcomesFrom_length resp 0 confs, ?_⟩
  rw [act_unfold saved account t op resp confs hid hop hne hck]
  rw [actLoop_all200 account t op resp confs hid ht hwf hst]
  rcases hfail : ((outcomesFrom resp 0 confs).filter fun r => !r.success).map (·.confId)
    with _ | ⟨a, as⟩
  · simp [hfail]
  · simp [hfail]

/-- C3 witness: a concrete instance of the amended statement — both the
all-success and the one-failure summary at a 2-item batch with the first
item's body reporting an error. -/
theorem c3_act_aggregate_error_witness :
    (outcomesFrom (fun i => if i == 0 then ⟨200, .obj (some false) (some "err") none⟩
        else okResp) 0 [mkItem "1" "k1", mkItem "2" "k2"]).length = 2 ∧
    actOnConfirmations (some sess0) acct0 1 "allow"
        (some [mkItem "1" "k1", mkItem "2" "k2"])
        (fun i => if i == 0 then ⟨200, .obj (some false) (some "err") none⟩ else okResp) =
      (if ((outcomesFrom (fun i => if i == 0 then ⟨200, .obj (some false) (some "err") none⟩
          else okResp) 0 [mkItem "1" "k1", mkItem "2" "k2"]).filter
            fun r => !r.success).map (·.confId) = []
       then (.ok ⟨true, outcomesFrom (fun i => if i == 0 then
          ⟨200, .obj (some false) (some "err") none⟩ else okResp) 0
          [mkItem "1" "k1", mkItem "2" "k2"]⟩, 2)
       else (.error (.batchFailed
          (((outcomesFrom (fun i => if i == 0 then ⟨200, .obj (some false) (some "err") none⟩
            else okResp) 0 [mkItem "1" "k1", mkItem "2" "k2"]).filter
              fun r => !r.success).map (·.confId))), 2)) :=
  c3_act_aggregate_error (some sess0) acct0 1 "allow"
    (fun i => if i == 0 then ⟨200, .obj (some false) (some "err") none⟩ else okResp)
    [mkItem "1" "k1", mkItem "2" "k2"]
    (by decide) (by decide) (Or.inl rfl) (by decide) (by decide)
    (by decide) (by decide)

/-- C4, counterexample: a stored session that is 40 days past creation —
which `isSessionValid` classifies as `SESSION_EXPIRED` — still passes
the pre-call session check of both `fetchConfirmations` and
`actOnConfirmations`: both issue their remote call (one call counted)
and succeed instead of failing with `LOGIN_REQUIRED` before any remote
call. -/
theorem c4_counterexample :
    isSessionValid (some sess0) 3456000000 = ⟨false, some .SESSION_EXPIRED⟩ ∧
    fetchConfirmations (some sess0) acct0 1 ⟨200, .obj (some [])⟩ = (.ok [], 1) ∧
    actOnConfirmations (some sess0) acct0 1 "allow" (some [mkItem "1" "k1"])
        (fun _ => okResp) =
      (.ok ⟨true, [⟨"1", true, none, none⟩]⟩, 1) := by
  exact ⟨by decide, by rfl, by rfl⟩

/-- C4 (amended): the session requirement of `fetchConfirmations` and
`actOnConfirmations` is only that `getSessionCookieHeader` resolves a
non-empty sessionid/token pair (stored session or maFile fallback):
when it does not, both fail with `LOGIN_REQUIRED` before any remote
call; when it does, the remote call is issued regardless of the
SessionLifecycle expiry policy — in particular even when
`isSessionExpired` holds at every current time. -/
theorem c4_session_check_is_token_presence_only
    (saved : Option StoredSession) (account : Account) (t : Nat) (op : String)
    (respF : FetchResp) (respA : Nat → HttpResp) (confs : List ConfItem)
    (hid : jsTruthy account.identity_secret = true) (ht : t < M32)
    (hop : op = "allow" ∨ op = "cancel") (hne : confs ≠ []) :
    (getSessionCookieHeader saved account = none →
      fetchConfirmations saved account t respF = (.error .loginRequired, 0) ∧
      actOnConfirmations saved account t op (some confs) respA =
        (.error .loginRequired, 0)) ∧
    ((getSessionCookieHeader saved account).isSome = true →
      ∀ now : Int, isSessionExpired saved now = true →
        (fetchConfirmations saved account t respF).2 = 1) := by
  constructor
  · intro hnone
    have hlen : (confs.length == 0) = false := by simp [hne]
    have hopb : (op == "allow" || op == "cancel") = true := by
      rcases hop with h | h <;> simp [h]
    constructor
    · simp only [fetchConfirmations, hid, Bool.not_true, Bool.false_eq_true, if_false,
        hnone]
    · simp only [actOnConfirmations, hid, hopb, Bool.not_true, Bool.false_eq_true,
        if_false, hlen, hnone]
  · intro hck _now _hexp
    obtain ⟨ck, hckk⟩ := Option.isSome_iff_exists.mp hck
    obtain ⟨ps, hps⟩ := gcqp_ok account t "conf" hid ht
    simp only [fetchConfirmations, hid, Bool.not_true, Bool.false_eq_true, if_false,
      hckk, hps]
    split
    · rfl
    · split
      · rfl
      · rcases respF.body <;> rfl

/-- C4 witness: a concrete instance of the amended statement, at the
40-day-old (hence expired) stored session `sess0`, for which the cookie
pair resolves and the remote call is issued. -/
theorem c4_session_check_is_token_presence_only_witness :
    (getSessionCookieHeader (some sess0) acct0 = none →
      fetchConfirmations (some sess0) acct0 1 ⟨200, .obj (some [])⟩ =
        (.error .loginRequired, 0) ∧
      actOnConfirmations (some sess0) acct0 1 "allow" (some [mkItem "1" "k1"])
        (fun _ => okResp) = (.error .loginRequired, 0)) ∧
    ((getSessionCookieHeader (some sess0) acct0).isSome = true →
      ∀ now : Int, isSessionExpired (some sess0) now = true →
        (fetchConfirmations (some sess0) acct0 1 ⟨200, .obj (some [])⟩).2 = 1) :=
  c4_session_check_is_token_presence_only (some sess0) acct0 1 "allow"
    ⟨200, .obj (some [])⟩ (fun _ => okResp) [mkItem "1" "k1"]
    (by decide) (by decide) (Or.inl rfl) (by decide)

/-- C5: `isSessionValid` returns `NO_SESSION` when no record exists,
`INCOMPLETE_SESSION` when a record exists but either token is empty,
and otherwise — for a record carrying a `createdAt` — classifies per
the spec's expiry policy (`specExpiryPolicy`): age expiry
(`now - createdAt > 30 days`) first, then idle expiry
(`now - lastUsed > 7 days`, only when `lastUsed` is present), yielding
`SESSION_EXPIRED` or `valid = true`; a session with no `lastUsed` is
never idle-expired on that basis alone. -/
theorem c5_validate_classification
    (s s2 : StoredSession) (now c : Int)
    (hTok1 : jsTruthy s.sessionid = true) (hTok2 : jsTruthy s.steamLoginSecure = true)
    (hC : s.createdAt = some c)
    (hInc : jsTruthy s2.sessionid = false ∨ jsTruthy s2.steamLoginSecure = false) :
    isSessionValid none now = ⟨false, some .NO_SESSION⟩ ∧
    isSessionValid (some s2) now = ⟨false, some .INCOMPLETE_SESSION⟩ ∧
    isSessionExpired (some s) now = specExpiryPolicy c s.lastUsed now ∧
    isSessionValid (some s) now =
      (if specExpiryPolicy c s.lastUsed now then ⟨false, some .SESSION_EXPIRED⟩
       else ⟨true, none⟩) ∧
    (s.lastUsed = none →
      isSessionValid (some s) now =
        (if now - c > 30 * 86400000 then ⟨false, some .SESSION_EXPIRED⟩
         else ⟨true, none⟩)) := by
  have hexp : isSessionExpired (some s) now = specExpiryPolicy c s.lastUsed now := by
    simp only [isSessionExpired, specExpiryPolicy, hC, SESSION_EXPIRY_MS,
      SESSION_IDLE_TIMEOUT_MS]
    norm_num
    cases s.lastUsed <;> rfl
  have hval : isSessionValid (some s) now =
      (if specExpiryPolicy c s.lastUsed now then ⟨false, some .SESSION_EXPIRED⟩
       else ⟨true, none⟩) := by
    simp only [isSessionValid, hTok1, hTok2, Bool.not_true, Bool.false_or,
      Bool.false_eq_true, if_false, hexp]
  refine ⟨rfl, ?_, hexp, hval, ?_⟩
  · rcases hInc with h | h <;> simp [isSessionValid, h]
  · intro hlu
    rw [hval]
    by_cases hP : now - c > 30 * 86400000
    · simp [specExpiryPolicy, hlu, hP]
    · simp [specExpiryPolicy, hlu, hP]

/-- C5 witness: a concrete instance at a fresh session (created and last
used at time 0, checked at time 100) and a concrete incomplete record. -/
theorem c5_validate_classification_witness :
    isSessionValid none 100 = ⟨false, some .NO_SESSION⟩ ∧
    isSessionValid (some ⟨some "", some "tok", none, some 0, none⟩) 100 =
      ⟨false, some .INCOMPLETE_SESSION⟩ ∧
    isSessionExpired (some sess0) 100 = specExpiryPolicy 0 sess0.lastUsed 100 ∧
    isSessionValid (some sess0) 100 =
      (if specExpiryPolicy 0 sess0.lastUsed 100 then ⟨false, some .SESSION_EXPIRED⟩
       else ⟨true, none⟩) ∧
    (sess0.lastUsed = none →
      isSessionValid (some sess0) 100 =
        (if (100 : Int) - 0 > 30 * 86400000 then ⟨false, some .SESSION_EXPIRED⟩
         else ⟨true, none⟩)) :=
  c5_validate_classification sess0 ⟨some "", some "tok", none, some 0, none⟩ 100 0
    (by decide) (by decide) rfl (Or.inl (by decide))

/-- C6: for every decodable shared secret and every timestamp (with the
time step in `uint32` range, as `writeUInt32BE` requires),
`generateSteamGuardCode` returns the string obtained by HMAC-SHA1 over
the 8-byte big-endian buffer `uint32BE 0 ++ uint32BE timeStep`, the
31-bit big-endian extraction at `offset = digest[19] & 0x0F`, and five
`value mod 26` alphabet picks appended in extraction order — a string of
exactly 5 characters, each drawn from the fixed 26-character alphabet. -/
theorem c6_code_shape (secret : Option String) (key : List Nat) (ms : Nat)
    (hsec : bufferizeSecret secret = some key) (ht : ms / 1000 / 30 < M32) :
    generateSteamGuardCode secret ms =
      .ok (String.mk (codeLoop 5
        (extract31 (hmacSha1 key (be32 0 ++ be32 (ms / 1000 / 30)))))) ∧
    (String.mk (codeLoop 5
      (extract31 (hmacSha1 key (be32 0 ++ be32 (ms / 1000 / 30)))))).length = 5 ∧
    ∀ ch ∈ (String.mk (codeLoop 5
      (extract31 (hmacSha1 key (be32 0 ++ be32 (ms / 1000 / 30)))))).data,
      ch ∈ steamChars := by
  have hbuf : writeBytes (writeBytes (List.replicate 8 0) 0 (be32 0)) 4
      (be32 (ms / 1000 / 30)) = be32 0 ++ be32 (ms / 1000 / 30) := by
    have h := confirmationBuffer_eq (ms / 1000 / 30) ([] : List Nat)
    simpa using h
  refine ⟨?_, ?_, ?_⟩
  · simp only [generateSteamGuardCode, hsec, if_pos ht, codeForTimeStep, hbuf]
  · simp only [String.length]
    exact codeLoop_length 5 _
  · exact codeLoop_mem 5 _

/-- C6 witness: the concrete secret `"AA=="` (one zero byte) at
timestamp 30000 ms. -/
theorem c6_code_shape_witness :
    generateSteamGuardCode (some "AA==") 30000 =
      .ok (String.mk (codeLoop 5
        (extract31 (hmacSha1 [0] (be32 0 ++ be32 (30000 / 1000 / 30)))))) ∧
    (String.mk (codeLoop 5
      (extract31 (hmacSha1 [0] (be32 0 ++ be32 (30000 / 1000 / 30)))))).length = 5 ∧
    ∀ ch ∈ (String.mk (codeLoop 5
      (extract31 (hmacSha1 [0] (be32 0 ++ be32 (30000 / 1000 / 30)))))).data,
      ch ∈ steamChars :=
  c6_code_shape (some "AA==") [0] 30000 (by decide) (by decide)

/-- C7: `generateSteamGuardCode` is a deterministic pure function of the
shared secret and the 30-second time step — two calls whose timestamps
fall in the same 30-second window return identical output. -/
theorem c7_window_determinism (secret : Option String) (ms1 ms2 : Nat)
    (_hval : (bufferizeSecret secret).isSome = true)
    (hw : ms1 / 1000 / 30 = ms2 / 1000 / 30) :
    generateSteamGuardCode secret ms1 = generateSteamGuardCode secret ms2 := by
  unfold generateSteamGuardCode
  cases h : bufferizeSecret secret with
  | none => rfl
  | some key => rw [hw]

/-- C7 witness: timestamps 30000 ms and 59999 ms share the time step 1
and produce the same code for the secret `"AA=="`. -/
theorem c7_window_determinism_witness :
    generateSteamGuardCode (some "AA==") 30000 =
      generateSteamGuardCode (some "AA==") 59999 :=
  c7_window_determinism (some "AA==") 30000 59999 (by decide) (by decide)

/-- C8: for every decodable identity secret, every `uint32`-range time
and every tag, `generateConfirmationKey` is base64 of HMAC-SHA1 over the
`(8 + len tag)`-byte buffer `uint32BE 0 ++ uint32BE time ++ utf8 tag`
(the tag part empty for the empty tag), and
`generateConfirmationQueryParams` returns exactly the six-field
parameter set: device id `p`, account identifier `a`, signature `k`,
timestamp `t`, fixed platform marker `m = "android"`, and `tag`. -/
theorem c8_signing_layout (secret : Option String) (key : List Nat) (t : Nat)
    (tag : String) (account : Account)
    (hsec : bufferizeSecret secret = some key) (ht : t < M32)
    (hacct : account.identity_secret = secret) :
    generateConfirmationKey secret t tag =
      .ok (base64Encode (hmacSha1 key (be32 0 ++ be32 t ++ utf8Encode tag))) ∧
    (be32 0 ++ be32 t ++ utf8Encode tag).length = 8 + (utf8Encode tag).length ∧
    (tag = "" → be32 0 ++ be32 t ++ utf8Encode tag = be32 0 ++ be32 t) ∧
    generateConfirmationQueryParams account t tag =
      .ok [("p", account.device_id), ("a", account.steamid),
           ("k", base64Encode (hmacSha1 key (be32 0 ++ be32 t ++ utf8Encode tag))),
           ("t", toString t), ("m", "android"), ("tag", tag)] := by
  have hkey : generateConfirmationKey secret t tag =
      .ok (base64Encode (hmacSha1 key (be32 0 ++ be32 t ++ utf8Encode tag))) := by
    simp only [generateConfirmationKey, hsec, if_pos ht]
    rw [confirmationBuffer_eq]
  refine ⟨hkey, ?_, ?_, ?_⟩
  · simp only [List.length_append, be32_length]
  · intro htag
    subst htag
    simp [utf8Encode]
  · simp only [generateConfirmationQueryParams, hacct, hkey]

/-- C8 witness: the concrete identity secret `"AA=="` (one zero byte) at
time 1 with tag `"conf"`, for the fixture account. -/
theorem c8_signing_layout_witness :
    generateConfirmationKey (some "AA==") 1 "conf" =
      .ok (base64Encode (hmacSha1 [0] (be32 0 ++ be32 1 ++ utf8Encode "conf"))) ∧
    (be32 0 ++ be32 1 ++ utf8Encode "conf").length = 8 + (utf8Encode "conf").length ∧
    ("conf" = "" → be32 0 ++ be32 1 ++ utf8Encode "conf" = be32 0 ++ be32 1) ∧
    generateConfirmationQueryParams acct0 1 "conf" =
      .ok [("p", acct0.device_id), ("a", acct0.steamid),
           ("k", base64Encode (hmacSha1 [0] (be32 0 ++ be32 1 ++ utf8Encode "conf"))),
           ("t", toString 1), ("m", "android"), ("tag", "conf")] :=
  c8_signing_layout (some "AA==") [0] 1 "conf" acct0 (by decide) (by decide) rfl

/-- C9, counterexample: the input `"A"` is neither empty nor 40-hex and
its base64 decoding yields zero bytes, yet `bufferizeSecret` returns the
empty buffer instead of failing — and the code generator accepts it
rather than raising the missing-secret error. -/
theorem c9_counterexample :
    bufferizeSecret (some "A") = some ([] : List Nat) ∧
    generateSteamGuardCode (some "A") 0 = .ok "RYH4D" := by
  exact ⟨by decide, by rfl⟩

/-- C9 (amended): `bufferizeSecret` maps any text of exactly 40
hexadecimal characters (case-insensitive) to its hex-decoded bytes and
any other non-empty text to its base64-decoded bytes; it fails (returns
`null`) only for empty or `null` input — an input whose base64 decoding
yields zero-length output is returned as an empty byte buffer, not
rejected. -/
theorem c9_decode_rules (s : String) (hs : s ≠ "") :
    bufferizeSecret none = none ∧
    bufferizeSecret (some "") = none ∧
    (isHex40 s = true → bufferizeSecret (some s) = some (hexDecodeAux s.data)) ∧
    (isHex40 s = false → bufferizeSecret (some s) = some (base64Decode s)) := by
  refine ⟨rfl, rfl, ?_, ?_⟩ <;> intro h <;> simp [bufferizeSecret, hs, h]

/-- C9 witness: a concrete instance at the 40-hex string of zeros and,
through a second application, at the base64 text `"AA=="`. -/
theorem c9_decode_rules_witness :
    (isHex40 "0000000000000000000000000000000000000000" = true →
      bufferizeSecret (some "0000000000000000000000000000000000000000") =
        some (hexDecodeAux "0000000000000000000000000000000000000000".data)) ∧
    (isHex40 "AA==" = false →
      bufferizeSecret (some "AA==") = some (base64Decode "AA==")) :=
  ⟨(c9_decode_rules "0000000000000000000000000000000000000000" (by decide)).2.2.1,
   (c9_decode_rules "AA==" (by decide)).2.2.2⟩

/-- C10: a stored session record with both tokens non-empty but no
`createdAt` field is classified `SESSION_EXPIRED` by `isSessionValid`
at every current time — never valid and never `INCOMPLETE_SESSION`. -/
theorem c10_missing_createdAt_is_expired (sid tok : String) (oa : Option String)
    (lu : Option Int) (now : Int) (hsid : sid ≠ "") (htok : tok ≠ "") :
    isSessionValid (some ⟨some sid, some tok, oa, none, lu⟩) now =
      ⟨false, some .SESSION_EXPIRED⟩ := by
  simp [isSessionValid, isSessionExpired, jsTruthy, hsid, htok]

/-- C10 witness: a concrete record with tokens `"s"`/`"t"` and no
`createdAt`, at time 0. -/
theorem c10_missing_createdAt_is_expired_witness :
    isSessionValid (some ⟨some "s", some "t", none, none, some 0⟩) 0 =
      ⟨false, some .SESSION_EXPIRED⟩ :=
  c10_missing_createdAt_is_expired "s" "t" none (some 0) 0 (by decide) (by decide)

end SteamAuth
